import Mathlib

/-!
Verification of the port-owner termination routine `kill_process_on_port`
from `src/kill.py`.

The Python routine iterates over the OS process table
(`psutil.process_iter(['pid', 'name', 'connections'])`), skipping any
entry whose connection snapshot is unavailable (psutil maps an
access-denied or zombie-process failure for the requested attribute to
the value `None`, and a process that vanishes mid-iteration is dropped
from the iteration entirely; the `if connections:` test then skips
`None` as well as an empty list).  On the first socket whose local port
equals the target it prints a status line, calls
`os.kill(pid, signal.SIGTERM)` and returns; if the scan is exhausted it
prints a not-found line.

The embedding models the OS environment explicitly:
- `ProcInfo` is one enumerated process record, with
  `connections = none` standing for an unavailable snapshot;
- the process table is the list of records in enumeration order
  (processes that vanished before being yielded are simply absent);
- `canSignal pid` tells whether `os.kill pid SIGTERM` succeeds; a
  failing call raises an `OSError` that the Python code does not catch,
  modelled by the `PyResult.exn` result;
- the observable behaviour is a trace of `Event`s: each printed line
  and each `os.kill` invocation, in program order.
-/

/-- Local or remote address of a socket endpoint, as in psutil's
`addr(ip, port)` named tuple. -/
structure Addr where
  ip : String
  port : Nat
deriving DecidableEq

/-- Socket address family (psutil reports e.g. AF_INET, AF_INET6). -/
inductive SockFamily
  | afInet
  | afInet6
deriving DecidableEq

/-- Socket kind: stream (TCP) or datagram (UDP). -/
inductive SockKind
  | sockStream
  | sockDgram
deriving DecidableEq

/-- Connection status as reported by psutil (`NONE` for UDP sockets). -/
inductive ConnStatus
  | listen
  | established
  | timeWait
  | closeWait
  | noStatus
deriving DecidableEq

/-- One socket endpoint of a process, as yielded in the `connections`
snapshot: the match in `kill.py` reads only `laddr.port`, but the
record carries the full connection data psutil exposes. -/
structure Connection where
  family : SockFamily
  kind : SockKind
  laddr : Addr
  raddr : Option Addr
  status : ConnStatus
deriving DecidableEq

/-- One process record yielded by
`psutil.process_iter(['pid', 'name', 'connections'])`:
`connections = none` models psutil's `ad_value` substitution when the
socket list of that process is unavailable (permission denied or the
process became a zombie). -/
structure ProcInfo where
  pid : Nat
  name : String
  connections : Option (List Connection)
deriving DecidableEq

/-- Signals of the `signal` module that matter here. -/
inductive PySignal
  | SIGTERM
  | SIGKILL
deriving DecidableEq

/-- Observable events of one invocation, in program order: a line
printed to standard output, or an `os.kill` invocation. -/
inductive Event
  | print (line : String)
  | kill (pid : Nat) (sig : PySignal)
deriving DecidableEq

/-- Result of the Python call: a normal return carrying the returned
value (`none` models Python's `None`), or an exception propagating out
of the function unhandled. -/
inductive PyResult
  | ret (v : Option Nat)
  | exn (e : String)
deriving DecidableEq

/-- The status line `f"Killing process {name} with PID {pid} on port {port}"`. -/
def killingLine (name : String) (pid : Nat) (port : Int) : String :=
  "Killing process " ++ name ++ " with PID " ++ toString pid ++
    " on port " ++ toString port

/-- The status line `f"No process found running on port {port}"`. -/
def noProcessLine (port : Int) : String :=
  "No process found running on port " ++ toString port

/-- The match test of `kill.py` line 11: `conn.laddr.port == port`.
Only the local port is compared; family, kind, status and remote
address play no part. -/
def connMatches (port : Int) (c : Connection) : Bool :=
  (c.laddr.port : Int) == port

/-- Whether a process record is selected by the scan: its connection
snapshot is available and some endpoint's local port equals the target. -/
def procMatches (port : Int) (p : ProcInfo) : Bool :=
  match p.connections with
  | none => false
  | some conns => conns.any (connMatches port)

/-- Shallow embedding of `kill_process_on_port` from `src/kill.py`:
scan the process table in enumeration order; skip an entry whose
`connections` value is falsy (`None` or the empty list); on the first
endpoint with matching local port, print the killing line, invoke
`os.kill(pid, SIGTERM)` and return; after an exhausted scan print the
not-found line.  The result pairs the event trace with the Python
result; a failing `os.kill` raises `OSError`, which the code does not
catch. -/
def kill_process_on_port (port : Int) (canSignal : Nat → Bool) :
    List ProcInfo → List Event × PyResult
  | [] => ([Event.print (noProcessLine port)], PyResult.ret none)
  | p :: rest =>
    match p.connections with
    | none => kill_process_on_port port canSignal rest
    | some conns =>
      if conns.isEmpty then
        kill_process_on_port port canSignal rest
      else
        match conns.find? (connMatches port) with
        | some _ =>
          ([Event.print (killingLine p.name p.pid port),
            Event.kill p.pid PySignal.SIGTERM],
           if canSignal p.pid then PyResult.ret none
           else PyResult.exn "OSError")
        | none => kill_process_on_port port canSignal rest

/-- Whether an event is a printed line. -/
def Event.isPrint : Event → Bool
  | .print _ => true
  | .kill _ _ => false

/-- Whether an event is an `os.kill` invocation. -/
def Event.isKill : Event → Bool
  | .print _ => false
  | .kill _ _ => true

/-- A process record that does not match is skipped: the scan of the
tail is unchanged. -/
theorem skip_of_not_procMatches (port : Int) (canSignal : Nat → Bool)
    (p : ProcInfo) (rest : List ProcInfo) (h : procMatches port p = false) :
    kill_process_on_port port canSignal (p :: rest) =
      kill_process_on_port port canSignal rest := by
  obtain ⟨pid, name, conns?⟩ := p
  cases conns? with
  | none => rfl
  | some conns =>
    have hany : conns.any (connMatches port) = false := by
      simpa [procMatches] using h
    cases conns with
    | nil => rfl
    | cons c cs =>
      have hfind : (c :: cs).find? (connMatches port) = none := by
        rw [List.find?_eq_none]
        intro x hx
        have := List.any_eq_false.mp hany x hx
        simpa using this
      conv_lhs => rw [kill_process_on_port.eq_def]
      simp [hfind]

/-- A matching process record ends the scan at once with the killing
line and the single `os.kill` invocation. -/
theorem hit_of_procMatches (port : Int) (canSignal : Nat → Bool)
    (p : ProcInfo) (rest : List ProcInfo) (h : procMatches port p = true) :
    kill_process_on_port port canSignal (p :: rest) =
      ([Event.print (killingLine p.name p.pid port),
        Event.kill p.pid PySignal.SIGTERM],
       if canSignal p.pid then PyResult.ret none
       else PyResult.exn "OSError") := by
  obtain ⟨pid, name, conns?⟩ := p
  cases conns? with
  | none => simp [procMatches] at h
  | some conns =>
    have hany : conns.any (connMatches port) = true := by
      simpa [procMatches] using h
    obtain ⟨c, hc1, hc2⟩ := List.any_eq_true.mp hany
    have hne : conns.isEmpty = false := by
      cases conns with
      | nil => cases hc1
      | cons _ _ => rfl
    have hfind : ∃ c0, conns.find? (connMatches port) = some c0 := by
      have : (conns.find? (connMatches port)).isSome := by
        rw [List.find?_isSome]
        exact ⟨c, hc1, hc2⟩
      exact Option.isSome_iff_exists.mp this
    obtain ⟨c0, hc0⟩ := hfind
    conv_lhs => rw [kill_process_on_port.eq_def]
    simp [hne, hc0]

/-- The scan is the first-match search over the table: the whole
behaviour of `kill_process_on_port` is determined by
`procs.find? (procMatches port)`. -/
theorem kill_process_on_port_spec (port : Int) (canSignal : Nat → Bool)
    (procs : List ProcInfo) :
    kill_process_on_port port canSignal procs =
      match procs.find? (procMatches port) with
      | none => ([Event.print (noProcessLine port)], PyResult.ret none)
      | some p =>
        ([Event.print (killingLine p.name p.pid port),
          Event.kill p.pid PySignal.SIGTERM],
         if canSignal p.pid then PyResult.ret none
         else PyResult.exn "OSError") := by
  induction procs with
  | nil => rfl
  | cons p rest ih =>
    cases hm : procMatches port p with
    | false =>
      rw [skip_of_not_procMatches port canSignal p rest hm, ih,
        List.find?_cons_of_neg _ (by simp [hm])]
    | true =>
      rw [hit_of_procMatches port canSignal p rest hm,
        List.find?_cons_of_pos _ hm]

/-- The first element satisfying a test is the head of the filtered list. -/
theorem find?_eq_filter_head {α : Type} (f : α → Bool) (l : List α) :
    l.find? f = (l.filter f).head? := by
  induction l with
  | nil => rfl
  | cons a l ih =>
    cases hf : f a with
    | false =>
      rw [List.find?_cons_of_neg _ (by simp [hf]),
        List.filter_cons_of_neg (by simp [hf]), ih]
    | true =>
      rw [List.find?_cons_of_pos _ hf, List.filter_cons_of_pos (by simp [hf])]
      rfl

/-- A prefix with no satisfying element does not affect a first-match search. -/
theorem find?_append_of_none {α : Type} (f : α → Bool) (l₁ l₂ : List α)
    (h : ∀ x ∈ l₁, f x = false) : (l₁ ++ l₂).find? f = l₂.find? f := by
  induction l₁ with
  | nil => rfl
  | cons a l ih =>
    rw [List.cons_append, List.find?_cons_of_neg _ (by simp [h a (by simp)]),
      ih (fun x hx => h x (by simp [hx]))]

/-- A listening TCP server socket bound to local port 8000. -/
def sampleConn : Connection :=
  ⟨SockFamily.afInet, SockKind.sockStream, ⟨"0.0.0.0", 8000⟩, none,
    ConnStatus.listen⟩

/-- A process owning the port-8000 socket. -/
def sampleProc : ProcInfo := ⟨4242, "python", some [sampleConn]⟩

/-- A process with an empty socket snapshot. -/
def idleProc : ProcInfo := ⟨7, "bash", some []⟩

/-- A process whose socket snapshot is unavailable (psutil substituted
`None` after an access-denied failure). -/
def hiddenProc : ProcInfo := ⟨99, "rootd", none⟩

/-- A UDP client socket whose ephemeral local port is 8000 (connected to
a remote DNS-style endpoint, no listener semantics at all). -/
def udpConn : Connection :=
  ⟨SockFamily.afInet, SockKind.sockDgram, ⟨"192.168.0.5", 8000⟩,
    some ⟨"93.184.216.34", 53⟩, ConnStatus.noStatus⟩

/-- Claim C1: for every target port bound by exactly one accessible
enumerated process, `kill_process_on_port` reports the terminated
outcome naming that process's identifier, name and port (the single
printed status line), and sends exactly one graceful-termination signal
(`SIGTERM`, not a force-kill) to that identifier: the whole event trace
is that one line followed by the one `os.kill pid SIGTERM` call, and
the call returns normally. -/
theorem C1_unique_owner_gets_one_sigterm (port : Int) (canSignal : Nat → Bool)
    (procs : List ProcInfo) (p : ProcInfo)
    (huniq : procs.filter (procMatches port) = [p])
    (hsig : canSignal p.pid = true) :
    kill_process_on_port port canSignal procs =
      ([Event.print (killingLine p.name p.pid port),
        Event.kill p.pid PySignal.SIGTERM], PyResult.ret none) := by
  have hfind : procs.find? (procMatches port) = some p := by
    rw [find?_eq_filter_head, huniq]
    rfl
  rw [kill_process_on_port_spec, hfind]
  simp [hsig]

/-- Witness for C1: a table holding an idle shell and the port-8000
server; the server is the unique match and receives the one SIGTERM. -/
theorem C1_unique_owner_gets_one_sigterm_witness :
    ([idleProc, sampleProc].filter (procMatches 8000) = [sampleProc] ∧
      (fun _ : Nat => true) sampleProc.pid = true) ∧
    kill_process_on_port 8000 (fun _ => true) [idleProc, sampleProc] =
      ([Event.print (killingLine sampleProc.name sampleProc.pid 8000),
        Event.kill sampleProc.pid PySignal.SIGTERM], PyResult.ret none) :=
  ⟨⟨by decide, rfl⟩,
    C1_unique_owner_gets_one_sigterm 8000 (fun _ => true)
      [idleProc, sampleProc] sampleProc (by decide) rfl⟩

/-- Claim C5: for every target port matched by no enumerated process,
`kill_process_on_port` completes the scan, prints the not-found line,
returns normally, and its trace holds no `os.kill` call at all. -/
theorem C5_no_match_reports_not_found (port : Int) (canSignal : Nat → Bool)
    (procs : List ProcInfo) (h : ∀ p ∈ procs, procMatches port p = false) :
    kill_process_on_port port canSignal procs =
      ([Event.print (noProcessLine port)], PyResult.ret none) := by
  have hfind : procs.find? (procMatches port) = none := by
    rw [List.find?_eq_none]
    intro x hx
    simp [h x hx]
  rw [kill_process_on_port_spec, hfind]

/-- Witness for C5: nobody holds port 9999, so the scan of the sample
table ends with the not-found line and no signal. -/
theorem C5_no_match_reports_not_found_witness :
    (∀ p ∈ [idleProc, sampleProc, hiddenProc], procMatches 9999 p = false) ∧
    kill_process_on_port 9999 (fun _ => true)
        [idleProc, sampleProc, hiddenProc] =
      ([Event.print (noProcessLine 9999)], PyResult.ret none) :=
  ⟨by decide,
    C5_no_match_reports_not_found 9999 (fun _ => true)
      [idleProc, sampleProc, hiddenProc] (by decide)⟩

/-- Counterexample to claim C2: with the port-8000 owner matched but
already gone at signal time (every `os.kill` fails), the invocation
does not deliver any reported outcome: the `OSError` escapes
`kill_process_on_port` unhandled — the claim's "reports the
SignalFailure outcome ... does not crash with an unhandled fault" is
false on the code. -/
theorem C2_counterexample :
    (kill_process_on_port 8000 (fun _ => false) [sampleProc]).2 =
      PyResult.exn "OSError" ∧
    (kill_process_on_port 8000 (fun _ => false) [sampleProc]).2 ≠
      PyResult.ret none := by
  constructor
  · rfl
  · intro hcontra
    cases hcontra

/-- Claim C2 (amended): when the matched process has exited (or cannot
be signalled) between match and signal delivery, `kill_process_on_port`
does not retry the signal — exactly one `os.kill` call appears in the
trace — but it does not report a SignalFailure outcome either: the
`os.kill` exception propagates out of the function unhandled, after the
status line was already printed. -/
theorem C2_signal_failure_escapes (port : Int) (canSignal : Nat → Bool)
    (pre post : List ProcInfo) (p : ProcInfo)
    (hpre : ∀ q ∈ pre, procMatches port q = false)
    (hp : procMatches port p = true)
    (hsig : canSignal p.pid = false) :
    (kill_process_on_port port canSignal (pre ++ p :: post)).2 =
      PyResult.exn "OSError" ∧
    ((kill_process_on_port port canSignal (pre ++ p :: post)).1.filter
        Event.isKill).length = 1 := by
  have hfind : (pre ++ p :: post).find? (procMatches port) = some p := by
    rw [find?_append_of_none _ _ _ hpre, List.find?_cons_of_pos _ hp]
  have hrun := kill_process_on_port_spec port canSignal (pre ++ p :: post)
  rw [hfind] at hrun
  rw [hrun]
  simp [hsig, Event.isKill, Event.isPrint]

/-- Witness for the amended C2: the hidden process is skipped, the
port-8000 owner is matched, its signal fails, and the invocation ends
in the unhandled `OSError` after exactly one `os.kill` attempt. -/
theorem C2_signal_failure_escapes_witness :
    ((∀ q ∈ [hiddenProc], procMatches 8000 q = false) ∧
      procMatches 8000 sampleProc = true ∧
      (fun _ : Nat => false) sampleProc.pid = false) ∧
    ((kill_process_on_port 8000 (fun _ => false)
        ([hiddenProc] ++ sampleProc :: [idleProc])).2 =
      PyResult.exn "OSError" ∧
    ((kill_process_on_port 8000 (fun _ => false)
        ([hiddenProc] ++ sampleProc :: [idleProc])).1.filter
        Event.isKill).length = 1) :=
  ⟨⟨by decide, by decide, rfl⟩,
    C2_signal_failure_escapes 8000 (fun _ => false) [hiddenProc] [idleProc]
      sampleProc (by decide) (by decide) rfl⟩

/-- A second process also bound to port 8000, later in enumeration
order than `sampleProc`. -/
def lateProc : ProcInfo := ⟨5151, "node", some [sampleConn]⟩

/-- Claim C3: every invocation signals at most one process; any signal
in the trace is a SIGTERM aimed at the pid of a process of the table
that is bound to the target port, and it is the last event of the
invocation — nothing is inspected or signalled after it.  Moreover the
target is the first match in enumeration order: whenever the table
splits as a non-matching prefix, a matching process `p`, and an
arbitrary remainder, the `os.kill` calls of the run are exactly the one
SIGTERM to `p.pid`, and no later process — bound to the port or not —
is ever signalled. -/
theorem C3_at_most_one_signal_first_match (port : Int)
    (canSignal : Nat → Bool) (procs : List ProcInfo) :
    ((kill_process_on_port port canSignal procs).1.filter
        Event.isKill).length ≤ 1 ∧
    (∀ pid sig,
      Event.kill pid sig ∈ (kill_process_on_port port canSignal procs).1 →
      sig = PySignal.SIGTERM ∧
      (∃ p, p ∈ procs ∧ p.pid = pid ∧ procMatches port p = true) ∧
      (kill_process_on_port port canSignal procs).1.getLast? =
        some (Event.kill pid sig)) ∧
    (∀ pre p post,
      procs = pre ++ p :: post →
      (∀ q ∈ pre, procMatches port q = false) →
      procMatches port p = true →
      (kill_process_on_port port canSignal procs).1.filter Event.isKill =
        [Event.kill p.pid PySignal.SIGTERM] ∧
      ∀ q ∈ post, ∀ sig, q.pid ≠ p.pid →
        Event.kill q.pid sig ∉
          (kill_process_on_port port canSignal procs).1) := by
  have hrun := kill_process_on_port_spec port canSignal procs
  refine ⟨?_, ?_, ?_⟩
  · cases hfind : procs.find? (procMatches port) with
    | none =>
      rw [hfind] at hrun
      rw [hrun]
      simp [Event.isKill]
    | some p =>
      rw [hfind] at hrun
      rw [hrun]
      simp [Event.isKill, Event.isPrint]
  · intro pid sig hmem
    cases hfind : procs.find? (procMatches port) with
    | none =>
      rw [hfind] at hrun
      rw [hrun] at hmem
      simp at hmem
    | some p =>
      rw [hfind] at hrun
      rw [hrun] at hmem
      simp [List.mem_cons] at hmem
      obtain ⟨hpid, hs⟩ := hmem
      subst hpid
      subst hs
      refine ⟨rfl,
        ⟨p, List.mem_of_find?_eq_some hfind, rfl, List.find?_some hfind⟩, ?_⟩
      rw [hrun]
      rfl
  · intro pre p post hdec hpre hp
    have hfind : procs.find? (procMatches port) = some p := by
      rw [hdec, find?_append_of_none _ _ _ hpre, List.find?_cons_of_pos _ hp]
    rw [hfind] at hrun
    rw [hrun]
    constructor
    · simp [Event.isKill, Event.isPrint]
    · intro q hq sig hne hmem
      simp [List.mem_cons] at hmem
      exact hne hmem.1

/-- Witness for C3: with a second port-8000 owner later in enumeration
order, the run's only `os.kill` is the SIGTERM to the first owner, pid
4242, and the later owner, pid 5151, is never signalled. -/
theorem C3_at_most_one_signal_first_match_witness :
    ([idleProc, sampleProc, lateProc] = [idleProc] ++ sampleProc :: [lateProc] ∧
      (∀ q ∈ [idleProc], procMatches 8000 q = false) ∧
      procMatches 8000 sampleProc = true) ∧
    ((kill_process_on_port 8000 (fun _ => true)
        [idleProc, sampleProc, lateProc]).1.filter Event.isKill =
      [Event.kill sampleProc.pid PySignal.SIGTERM] ∧
    ∀ q ∈ [lateProc], ∀ sig, q.pid ≠ sampleProc.pid →
      Event.kill q.pid sig ∉
        (kill_process_on_port 8000 (fun _ => true)
          [idleProc, sampleProc, lateProc]).1) :=
  ⟨⟨rfl, by decide, by decide⟩,
    (C3_at_most_one_signal_first_match 8000 (fun _ => true)
      [idleProc, sampleProc, lateProc]).2.2 [idleProc] sampleProc [lateProc]
      rfl (by decide) (by decide)⟩

/-- Claim C4: an enumerated entry whose connection snapshot is
unavailable (psutil substituted `None`) is skipped non-fatally — the
invocation behaves exactly as if the entry were absent — and the scan
still finds and signals a later process bound to the target port when
one exists. -/
theorem C4_inaccessible_entry_skipped (port : Int) (canSignal : Nat → Bool)
    (q : ProcInfo) (rest : List ProcInfo) (hq : q.connections = none) :
    kill_process_on_port port canSignal (q :: rest) =
      kill_process_on_port port canSignal rest ∧
    ((∃ p, p ∈ rest ∧ procMatches port p = true) →
      ∃ pid, Event.kill pid PySignal.SIGTERM ∈
        (kill_process_on_port port canSignal (q :: rest)).1) := by
  have hskip := skip_of_not_procMatches port canSignal q rest
    (by simp [procMatches, hq])
  refine ⟨hskip, ?_⟩
  rintro ⟨p, hp, hm⟩
  rw [hskip]
  have hsome : (rest.find? (procMatches port)).isSome := by
    rw [List.find?_isSome]
    exact ⟨p, hp, hm⟩
  obtain ⟨p0, hp0⟩ := Option.isSome_iff_exists.mp hsome
  have hrun := kill_process_on_port_spec port canSignal rest
  rw [hp0] at hrun
  rw [hrun]
  exact ⟨p0.pid, by simp⟩

/-- Witness for C4: the permission-restricted process is skipped and
the scan still signals the port-8000 owner behind it. -/
theorem C4_inaccessible_entry_skipped_witness :
    hiddenProc.connections = none ∧
    (kill_process_on_port 8000 (fun _ => true) (hiddenProc :: [sampleProc]) =
        kill_process_on_port 8000 (fun _ => true) [sampleProc] ∧
      ((∃ p, p ∈ [sampleProc] ∧ procMatches 8000 p = true) →
        ∃ pid, Event.kill pid PySignal.SIGTERM ∈
          (kill_process_on_port 8000 (fun _ => true)
            (hiddenProc :: [sampleProc])).1)) :=
  ⟨rfl,
    C4_inaccessible_entry_skipped 8000 (fun _ => true) hiddenProc
      [sampleProc] rfl⟩

/-- Claim C6: `kill_process_on_port` takes any integer port — the
argument is unconstrained, with no range validation and no rejection
path — and every invocation runs the scan to a first match or to
exhaustion: either some bound process of the table is matched and its
killing line and SIGTERM call make up the trace, or no process matches
and the invocation ends with the not-found line and a normal return. -/
theorem C6_no_range_validation_scan_completes (port : Int)
    (canSignal : Nat → Bool) (procs : List ProcInfo) :
    (∃ p, p ∈ procs ∧ procMatches port p = true ∧
      (kill_process_on_port port canSignal procs).1 =
        [Event.print (killingLine p.name p.pid port),
         Event.kill p.pid PySignal.SIGTERM]) ∨
    ((∀ p ∈ procs, procMatches port p = false) ∧
      kill_process_on_port port canSignal procs =
        ([Event.print (noProcessLine port)], PyResult.ret none)) := by
  have hrun := kill_process_on_port_spec port canSignal procs
  cases hfind : procs.find? (procMatches port) with
  | none =>
    rw [hfind] at hrun
    right
    refine ⟨?_, hrun⟩
    intro x hx
    have := List.find?_eq_none.mp hfind x hx
    simpa using this
  | some p =>
    rw [hfind] at hrun
    left
    exact ⟨p, List.mem_of_find?_eq_some hfind, List.find?_some hfind,
      by rw [hrun]⟩

/-- Claim C7: every invocation prints exactly one line to standard
output: the killing line naming a process of the table, or the
not-found line for the target port. -/
theorem C7_exactly_one_output_line (port : Int) (canSignal : Nat → Bool)
    (procs : List ProcInfo) :
    ((kill_process_on_port port canSignal procs).1.filter
        Event.isPrint).length = 1 ∧
    ((∃ p, p ∈ procs ∧
        (kill_process_on_port port canSignal procs).1.filter Event.isPrint =
          [Event.print (killingLine p.name p.pid port)]) ∨
      (kill_process_on_port port canSignal procs).1.filter Event.isPrint =
        [Event.print (noProcessLine port)]) := by
  have hrun := kill_process_on_port_spec port canSignal procs
  cases hfind : procs.find? (procMatches port) with
  | none =>
    rw [hfind] at hrun
    rw [hrun]
    exact ⟨by simp [Event.isPrint], Or.inr (by simp [Event.isPrint])⟩
  | some p =>
    rw [hfind] at hrun
    rw [hrun]
    refine ⟨by simp [Event.isPrint], Or.inl ⟨p, List.mem_of_find?_eq_some hfind, ?_⟩⟩
    simp [Event.isPrint]

/-- Claim C8: whenever `kill_process_on_port` returns at all, it
returns Python's `None` — in the signalled case just as in the
not-found case — so the three outcomes are never distinguishable
through the return value. -/
theorem C8_always_returns_none (port : Int) (canSignal : Nat → Bool)
    (procs : List ProcInfo) (v : Option Nat)
    (h : (kill_process_on_port port canSignal procs).2 = PyResult.ret v) :
    v = none := by
  have hrun := kill_process_on_port_spec port canSignal procs
  cases hfind : procs.find? (procMatches port) with
  | none =>
    rw [hfind] at hrun
    rw [hrun] at h
    simpa using h.symm
  | some p =>
    rw [hfind] at hrun
    rw [hrun] at h
    cases hcan : canSignal p.pid with
    | true =>
      simp [hcan] at h
      simp [h]
    | false =>
      simp [hcan] at h

/-- Witness for C8: the signalled run over the sample table returns
normally, and the returned value is `None`. -/
theorem C8_always_returns_none_witness :
    (kill_process_on_port 8000 (fun _ => true) [idleProc, sampleProc]).2 =
      PyResult.ret none ∧ (none : Option Nat) = none :=
  ⟨by decide,
    C8_always_returns_none 8000 (fun _ => true) [idleProc, sampleProc]
      none (by decide)⟩

/-- Claim C9: whenever an `os.kill` call appears in a trace, the trace
is exactly the killing status line followed by that call — the line is
printed strictly before the signal is attempted, and the trace shape is
the same whether or not delivery then succeeds, so the printed report
never implies that the signal was delivered. -/
theorem C9_line_printed_before_signal (port : Int) (canSignal : Nat → Bool)
    (procs : List ProcInfo) (pid : Nat) (sig : PySignal)
    (h : Event.kill pid sig ∈ (kill_process_on_port port canSignal procs).1) :
    ∃ n, (kill_process_on_port port canSignal procs).1 =
      [Event.print (killingLine n pid port),
       Event.kill pid PySignal.SIGTERM] := by
  have hrun := kill_process_on_port_spec port canSignal procs
  cases hfind : procs.find? (procMatches port) with
  | none =>
    rw [hfind] at hrun
    rw [hrun] at h
    simp at h
  | some p =>
    rw [hfind] at hrun
    rw [hrun] at h
    simp [List.mem_cons] at h
    obtain ⟨hpid, hs⟩ := h
    subst hpid
    exact ⟨p.name, by rw [hrun]⟩

/-- Witness for C9: with every `os.kill` failing, the killing line is
still printed first and the kill attempt follows it — the report
precedes (and does not certify) delivery. -/
theorem C9_line_printed_before_signal_witness :
    Event.kill 4242 PySignal.SIGTERM ∈
      (kill_process_on_port 8000 (fun _ => false) [sampleProc]).1 ∧
    (∃ n, (kill_process_on_port 8000 (fun _ => false) [sampleProc]).1 =
      [Event.print (killingLine n 4242 8000),
       Event.kill 4242 PySignal.SIGTERM]) :=
  ⟨by decide,
    C9_line_printed_before_signal 8000 (fun _ => false) [sampleProc]
      4242 PySignal.SIGTERM (by decide)⟩

/-- Claim C10: the match test reads only the local port of each
endpoint — family, socket kind, connection status and remote address
are universally quantified here and play no part — so a process whose
only socket is, say, a UDP socket or an outbound TCP connection with
the target as its ephemeral local port is selected and signalled. -/
theorem C10_match_ignores_protocol_state_family (port : Int)
    (canSignal : Nat → Bool) (pid : Nat) (procName ip : String)
    (lport : Nat) (fam : SockFamily) (kind : SockKind)
    (raddr : Option Addr) (st : ConnStatus) (rest : List ProcInfo)
    (h : (lport : Int) = port) :
    kill_process_on_port port canSignal
        (⟨pid, procName, some [⟨fam, kind, ⟨ip, lport⟩, raddr, st⟩]⟩ :: rest) =
      ([Event.print (killingLine procName pid port),
        Event.kill pid PySignal.SIGTERM],
       if canSignal pid then PyResult.ret none
       else PyResult.exn "OSError") := by
  exact hit_of_procMatches port canSignal
    ⟨pid, procName, some [⟨fam, kind, ⟨ip, lport⟩, raddr, st⟩]⟩ rest
    (by simp [procMatches, connMatches, h])

/-- Witness for C10: a pure UDP client socket whose ephemeral local
port is 8000 gets its owner signalled exactly like a TCP listener. -/
theorem C10_match_ignores_protocol_state_family_witness :
    ((8000 : Nat) : Int) = (8000 : Int) ∧
    kill_process_on_port 8000 (fun _ => true)
        (⟨900, "dns-client", some [udpConn]⟩ :: [sampleProc]) =
      ([Event.print (killingLine "dns-client" 900 8000),
        Event.kill 900 PySignal.SIGTERM], PyResult.ret none) :=
  ⟨rfl,
    C10_match_ignores_protocol_state_family 8000 (fun _ => true)
      900 "dns-client" "192.168.0.5" 8000 SockFamily.afInet
      SockKind.sockDgram (some ⟨"93.184.216.34", 53⟩) ConnStatus.noStatus
      [sampleProc] rfl⟩
